import Mathlib

/- Verification model of jmetal/util/laboratory.py: Experiment.run,
compute_quality_indicator, create_tables_from_experiment and
compute_statistical_analysis, translated operation by operation. -/

namespace Laboratory

/-- Model of the Python list method insert: the element is placed at the
given position, clamped to the list length, exactly as list.insert does
for a non negative index. -/
def pyInsert (l : List String) (i : Nat) (x : String) : List String :=
  l.take i ++ x :: l.drop i

/-- Helper for pySplit: splits a character list at every occurrence of the
separator, the accumulator holding the current piece reversed. -/
def splitCharAux (sep : Char) : List Char → List Char → List String
  | [], acc => [String.mk acc.reverse]
  | c :: cs, acc =>
    if c = sep then String.mk acc.reverse :: splitCharAux sep cs []
    else splitCharAux sep cs (c :: acc)

/-- Model of the Python expression s.split(sep) for a one character
separator, as used with the separators slash and dot in laboratory.py. -/
def pySplit (s : String) (sep : Char) : List String :=
  splitCharAux sep s.data []

/-- Character list helper for the Python substring test: does the second
list start with the first one. -/
def startsWithChars : List Char → List Char → Bool
  | [], _ => true
  | _ :: _, [] => false
  | a :: as, b :: bs => a == b && startsWithChars as bs

/-- Does the second character list contain the first one as a contiguous
segment. -/
def containsChars (pat : List Char) : List Char → Bool
  | [] => startsWithChars pat []
  | c :: cs => startsWithChars pat (c :: cs) || containsChars pat cs

/-- Model of the Python membership test of one string inside another, as in
the tests for FUN and QI on filenames. -/
def strContains (s pat : String) : Bool :=
  containsChars pat.data s.data

/-- Model of str.isdigit restricted to ASCII digits: true on a nonempty
string of decimal digits. -/
def isDigitStr (s : String) : Bool :=
  !s.data.isEmpty && s.data.all Char.isDigit

/-- Model of int() on a decimal digit string. -/
def parseNatStr (s : String) : Nat :=
  s.data.foldl (fun a c => a * 10 + (c.toNat - 48)) 0

/-- Model of os.path.join for the paths built in laboratory.py: joining
with an empty left component returns the right component unchanged. -/
def pathJoin (a b : String) : String :=
  if a = "" then b else a ++ "/" ++ b

/-- Model of the Python statement unpacking segs[-2:] into the pair
(algorithm, problem): a ValueError unless exactly two segments remain. -/
def last2 (l : List String) : Except String (String × String) :=
  match l.drop (l.length - 2) with
  | [a, b] => Except.ok (a, b)
  | _ => Except.error "ValueError: not enough values to unpack"

/-- Run index extraction of compute_quality_indicator: the code pops the
last element of the list of all-digit dot separated tokens of the
filename, which raises IndexError on an empty list, modelled as none. -/
def extractIndex (filename : String) : Option Nat :=
  (((pySplit filename '.').filter isDigitStr).map parseNatStr).getLast?

/-- An open Python text file in mode a+, with its lines and the stream
position measured in lines. CPython seeks to the end of file when a file
is opened in append mode, and the descriptor carries O_APPEND, which moves
every write to the then current end of file no matter where the position
was placed by seek. -/
structure AppendHandle where
  lines : List String
  pos : Nat

/-- Model of open in mode a+: the position starts at the end of file. -/
def openAplus (file : List String) : AppendHandle :=
  ⟨file, file.length⟩

/-- Model of readlines: everything from the position on; the position then
rests at the end of file. -/
def readlinesA (h : AppendHandle) : List String × AppendHandle :=
  (h.lines.drop h.pos, ⟨h.lines, h.lines.length⟩)

/-- Model of seek to offset zero: only the position changes. -/
def seek0 (h : AppendHandle) : AppendHandle :=
  ⟨h.lines, 0⟩

/-- Model of writelines under O_APPEND: the payload lands at the end of
file and the position follows it. -/
def writelinesA (h : AppendHandle) (xs : List String) : AppendHandle :=
  ⟨h.lines ++ xs, (h.lines ++ xs).length⟩

/-- The QI file update of compute_quality_indicator: open in mode a+, read
all lines from the current position, insert the value at the run index,
seek to the start and write the lines back. -/
def saveIndicatorValue (file : List String) (index : Nat) (value : String) : List String :=
  let h := openAplus file
  let rd := readlinesA h
  let contents := pyInsert rd.1 index value
  (writelinesA (seek0 rd.2) contents).lines

theorem saveIndicatorValue_eq_append (file : List String) (index : Nat) (value : String) :
    saveIndicatorValue file index value = file ++ [value] := by
  simp [saveIndicatorValue, openAplus, readlinesA, seek0, writelinesA, pyInsert]

/-- A QI file on disk is addressed by its directory and the indicator
name. -/
abbrev QIKey := String × String

/-- The QI files on disk, as an association list from key to lines. -/
abbrev QIFiles := List (QIKey × List String)

/-- Lines of a QI file, the empty list when the file does not exist. -/
def getFile : QIFiles → QIKey → List String
  | [], _ => []
  | kv :: rest, k => if kv.1 = k then kv.2 else getFile rest k

/-- Write a QI file, creating it when absent. -/
def setFile : QIFiles → QIKey → List String → QIFiles
  | [], k, v => [(k, v)]
  | kv :: rest, k, v => if kv.1 = k then (k, v) :: rest else kv :: setFile rest k v

theorem getFile_setFile (q : QIFiles) (k k' : QIKey) (v : List String) :
    getFile (setFile q k v) k' = if k' = k then v else getFile q k' := by
  induction q with
  | nil =>
    simp only [setFile, getFile]
    split_ifs <;> simp_all
  | cons kv rest ih =>
    simp only [setFile]
    by_cases h1 : kv.1 = k
    · by_cases h2 : k' = k
      · subst h2
        simp [getFile, if_pos h1]
      · have h3 : ¬ k = k' := fun hh => h2 hh.symm
        have h4 : ¬ kv.1 = k' := fun hh => h3 (h1.symm.trans hh)
        simp only [if_pos h1, getFile, if_neg h2, if_neg h3, if_neg h4]
    · by_cases h2 : k' = k
      · subst h2
        simp [getFile, if_neg h1, ih]
      · by_cases h5 : kv.1 = k'
        · simp only [if_neg h1, getFile, if_pos h5, if_neg h2]
        · simp only [if_neg h1, getFile, if_neg h5, if_neg h2, ih]

/-- A quality indicator collaborator: its display name, whether a
reference_front attribute is present (the hasattr test in the code), and
the compute entry point, which reads the currently bound reference front.
Solution lists and fronts are modelled as the lines of the files they were
read from, and the computed value as the string the code writes. -/
structure QualityIndicator where
  name : String
  has_reference_front : Bool
  compute : List String → Option (List String) → String

/-- A quality indicator object together with its mutable reference_front
attribute. -/
structure IndicatorState where
  indicator : QualityIndicator
  reference_front : Option (List String)

/-- State threaded through compute_quality_indicator: the QI files on
disk, the indicator objects and the warning log. -/
structure ScanState where
  qiFiles : QIFiles
  indicators : List IndicatorState
  warnings : List String

/-- Reference front handling of compute_quality_indicator: when the
indicator has a reference_front attribute and the reference front file for
the problem exists, it is loaded and bound; when the file is missing a
warning is emitted and the binding is left exactly as it was. Returns the
updated indicator and the emitted warnings. -/
def refFrontStep (fs : String → Option (List String)) (reference_fronts problem : String)
    (ist : IndicatorState) : IndicatorState × List String :=
  if ist.indicator.has_reference_front then
    match fs (pathJoin reference_fronts (problem ++ ".pf")) with
    | some front => (⟨ist.indicator, some front⟩, [])
    | none => (ist, ["Reference front not found at " ++ pathJoin reference_fronts (problem ++ ".pf")])
  else (ist, [])

/-- One pass of the indicator loop body of compute_quality_indicator for a
single FUN file: reference front handling, opening the QI file in mode a+
(which creates it when absent), run index extraction (an IndexError aborts
when the filename has no all-digit token) and the write of the computed
value through the a+ handle. -/
def processOneIndicator (fs : String → Option (List String))
    (reference_fronts dirname filename problem : String) (solutions : List String)
    (ist : IndicatorState) (qi : QIFiles) (warnings : List String) :
    Except String (IndicatorState × QIFiles × List String) :=
  let step := refFrontStep fs reference_fronts problem ist
  let key : QIKey := (dirname, step.1.indicator.name)
  let qi1 := setFile qi key (getFile qi key)
  match extractIndex filename with
  | none => Except.error "IndexError: pop from empty list"
  | some index =>
      let value := step.1.indicator.compute solutions step.1.reference_front ++ "\n"
      Except.ok (step.1, setFile qi1 key (saveIndicatorValue (getFile qi1 key) index value), warnings ++ step.2)

/-- The indicator loop of compute_quality_indicator over the configured
indicators, threading the QI files and the warning log. -/
def processIndicators (fs : String → Option (List String))
    (reference_fronts dirname filename problem : String) (solutions : List String) :
    List IndicatorState → QIFiles → List String →
    Except String (List IndicatorState × QIFiles × List String)
  | [], qi, warnings => Except.ok ([], qi, warnings)
  | ist :: rest, qi, warnings =>
    match processOneIndicator fs reference_fronts dirname filename problem solutions ist qi warnings with
    | Except.error e => Except.error e
    | Except.ok (ist1, qi1, w1) =>
      match processIndicators fs reference_fronts dirname filename problem solutions rest qi1 w1 with
      | Except.error e => Except.error e
      | Except.ok (rest1, qi2, w2) => Except.ok (ist1 :: rest1, qi2, w2)

/-- Body of the filename loop of compute_quality_indicator: the path split
and its tuple unpacking come first, then the FUN filename test, the read
of the solution file and the indicator loop. -/
def processFile (fs : String → Option (List String)) (reference_fronts dirname filename : String)
    (st : ScanState) : Except String ScanState :=
  match last2 (pySplit dirname '/') with
  | Except.error e => Except.error e
  | Except.ok ap =>
    if strContains filename "FUN" then
      let solutions := (fs (pathJoin dirname filename)).getD []
      match processIndicators fs reference_fronts dirname filename ap.2 solutions st.indicators st.qiFiles st.warnings with
      | Except.error e => Except.error e
      | Except.ok (inds, qi, w) => Except.ok ⟨qi, inds, w⟩
    else Except.ok st

/-- Filename loop of compute_quality_indicator over one walked
directory. -/
def scanFiles (fs : String → Option (List String)) (reference_fronts dirname : String) :
    List String → ScanState → Except String ScanState
  | [], st => Except.ok st
  | f :: rest, st =>
    match processFile fs reference_fronts dirname f st with
    | Except.error e => Except.error e
    | Except.ok st1 => scanFiles fs reference_fronts dirname rest st1

/-- Directory loop of compute_quality_indicator over the os.walk output,
modelled as the list of pairs of directory path and filenames. -/
def scanWalk (fs : String → Option (List String)) (reference_fronts : String) :
    List (String × List String) → ScanState → Except String ScanState
  | [], st => Except.ok st
  | (d, files) :: rest, st =>
    match scanFiles fs reference_fronts d files st with
    | Except.error e => Except.error e
    | Except.ok st1 => scanWalk fs reference_fronts rest st1

/-- Model of compute_quality_indicator. The read only input files (FUN
artifacts and reference fronts) are the function fs from path to lines,
qi0 holds the QI files already on disk when the scan starts, walk is the
os.walk output, and the indicator objects start with the reference_front
binding their constructor gave them (None). -/
def compute_quality_indicator (fs : String → Option (List String)) (qi0 : QIFiles)
    (walk : List (String × List String)) (quality_indicators : List QualityIndicator)
    (reference_fronts : String) : Except String ScanState :=
  scanWalk fs reference_fronts walk
    ⟨qi0, quality_indicators.map (fun q => ⟨q, none⟩), []⟩

/-- A job of the experiment: the algorithm handle is irrelevant to the
claims, the run tag names the artifacts. -/
structure Job where
  run_tag : Nat
deriving Repr, DecidableEq

/-- The two artifact paths a job writes when executed. -/
def Job.execute (j : Job) (path : String) : List String :=
  [pathJoin path ("FUN." ++ toString j.run_tag ++ ".ps"),
   pathJoin path ("VAR." ++ toString j.run_tag ++ ".ps")]

/-- What reaches ProcessPoolExecutor.submit for one job: either the value
a caller thread call of execute already returned, or an unevaluated
callable for the given run tag. -/
inductive SubmittedArg where
  | evaluatedResult : SubmittedArg
  | unevaluatedCallable : Nat → SubmittedArg
deriving Repr, DecidableEq

/-- Observable events on the caller thread of Experiment.run. -/
inductive RunEvent where
  | callerInvoke : List String → RunEvent
  | poolSubmit : SubmittedArg → RunEvent
deriving Repr, DecidableEq

/-- The Experiment class: base directory, job list and worker bound. -/
structure Experiment where
  base_directory : String
  jobs : List Job
  m_workers : Nat

/-- Caller thread trace of Experiment.run. Python evaluates the argument
of the submit call before the call itself, so each job executes on the
caller thread, writing its artifacts there, and submit receives the
already evaluated result instead of a callable. -/
def Experiment.run (e : Experiment) : List RunEvent :=
  e.jobs.flatMap (fun j =>
    [RunEvent.callerInvoke (j.execute e.base_directory),
     RunEvent.poolSubmit SubmittedArg.evaluatedResult])

/-- One table row appended by create_tables_from_experiment: the problem
from the path, the line index as run, the filename as column name and the
parsed value. -/
structure TableRow where
  problem : String
  run : Nat
  column : String
  value : ℚ
deriving Repr, DecidableEq

/-- Whitespace stripping around a literal, as float() tolerates. -/
def pyStrip (s : String) : String :=
  String.mk (((s.data.dropWhile Char.isWhitespace).reverse.dropWhile Char.isWhitespace).reverse)

/-- Model of float() on the plain non negative decimal literals that occur
in QI files, as an exact rational. -/
def pyFloat (s : String) : ℚ :=
  match pySplit (pyStrip s) '.' with
  | [w] => (parseNatStr w : ℚ)
  | [w, f] => (parseNatStr w : ℚ) + (parseNatStr f : ℚ) / (10 : ℚ) ^ f.data.length
  | _ => 0

/-- Rows contributed by one QI file: line index i gives the row with
problem, run i, the filename as column and the parsed value. -/
def fileRows (problem filename : String) (contents : List String) : List TableRow :=
  contents.enum.map (fun iv => ⟨problem, iv.1, filename, pyFloat iv.2⟩)

/-- Filename loop of create_tables_from_experiment over one directory: the
path unpacking comes first for every file, then the QI filename test. -/
def tableFiles (readFile : String → String → List String) (dirname : String) :
    List String → Except String (List TableRow)
  | [] => Except.ok []
  | f :: rest =>
    match last2 (pySplit dirname '/') with
    | Except.error e => Except.error e
    | Except.ok ap =>
      match tableFiles readFile dirname rest with
      | Except.error e => Except.error e
      | Except.ok rs =>
        Except.ok ((if strContains f "QI" then fileRows ap.2 f (readFile dirname f) else []) ++ rs)

/-- Directory loop of create_tables_from_experiment. -/
def tableWalk (readFile : String → String → List String) :
    List (String × List String) → Except String (List TableRow)
  | [] => Except.ok []
  | (d, files) :: rest =>
    match tableFiles readFile d files with
    | Except.error e => Except.error e
    | Except.ok rs =>
      match tableWalk readFile rest with
      | Except.error e => Except.error e
      | Except.ok rs2 => Except.ok (rs ++ rs2)

/-- Model of create_tables_from_experiment: the appended data frame as the
list of its rows, in walk order. -/
def create_tables_from_experiment (walk : List (String × List String))
    (readFile : String → String → List String) : Except String (List TableRow) :=
  tableWalk readFile walk

/-- Rows that land in the cell keyed by problem and run under one
column. -/
def cellRows (rows : List TableRow) (problem : String) (run : Nat) (column : String) :
    List TableRow :=
  rows.filter (fun r => r.problem == problem && r.run == run && r.column == column)

/-- One cell of the final grouped table: the mean over the rows sharing
the key, absent when no row matches, exactly the groupby mean step. -/
def groupMean (rows : List TableRow) (problem : String) (run : Nat) (column : String) :
    Option ℚ :=
  let cs := cellRows rows problem run column
  if cs.isEmpty then none
  else some (((cs.map TableRow.value).sum) / (cs.length : ℚ))

/-- One row of the verdict table of compute_statistical_analysis. -/
structure VerdictRow where
  problem : String
  testName : String
  verdict : String
deriving Repr, DecidableEq

/-- Insertion of a string into a sorted list, helper for the sorted group
keys of the pandas groupby. -/
def insertSorted (s : String) : List String → List String
  | [] => [s]
  | x :: xs => if s < x then s :: x :: xs else x :: insertSorted s xs

/-- Sorting of the group keys, as pandas groupby sorts them. -/
def sortStrings (l : List String) : List String :=
  l.foldr insertSorted []

/-- The experiment data frame handed to compute_statistical_analysis: the
column names and the rows, each keyed by problem and run and carrying one
value per column. -/
structure DataFrame where
  columns : List String
  rows : List ((String × Nat) × List ℚ)

/-- Group keys of the groupby on index level zero: the distinct problems
in sorted order. -/
def problemsOf (df : DataFrame) : List String :=
  sortStrings (df.rows.map (fun r => r.1.1)).dedup

/-- Rows of the subset for one problem, in table order, each aligned with
the column list. -/
def groupRows (df : DataFrame) (p : String) : List (List ℚ) :=
  (df.rows.filter (fun r => r.1.1 == p)).map (fun r => r.2)

/-- The series of one column of a subset. -/
def colSeries (g : List (List ℚ)) (i : Nat) : List ℚ :=
  g.map (fun r => r.getD i 0)

/-- Model of compute_statistical_analysis, with the scipy tests passed in
as p-value oracles. Fewer than two columns raise; two columns run the
Wilcoxon test on the two column series of each problem subset; otherwise
the Kruskal-Wallis oracle receives the tolist() of the subset values,
which is the list of the rows of the subset, one sample per run. -/
def compute_statistical_analysis (wilcoxon : List ℚ → List ℚ → ℚ)
    (kruskal : List (List ℚ) → ℚ) (df : DataFrame) : Except String (List VerdictRow) :=
  if df.columns.length < 2 then
    Except.error "Data sets number must be equal or greater than two"
  else if df.columns.length = 2 then
    Except.ok ((problemsOf df).map (fun p =>
      let g := groupRows df p
      ⟨p, "Wilcoxon", if wilcoxon (colSeries g 0) (colSeries g 1) < 1/20 then "*" else "-"⟩))
  else
    Except.ok ((problemsOf df).map (fun p =>
      ⟨p, "Kruskal-Wallis", if kruskal (groupRows df p) < 1/20 then "*" else "-"⟩))

/-- Column samples of a problem subset, one sample per table column.
Modelled from the spec: the claim words say the Kruskal-Wallis test runs
over all columns, which makes the samples the column series. -/
def columnSamples (df : DataFrame) (g : List (List ℚ)) : List (List ℚ) :=
  (List.range df.columns.length).map (colSeries g)

/-- Modelled from the spec words, for comparison with the source function:
identical to compute_statistical_analysis except that the Kruskal-Wallis
oracle receives the column samples of each subset. -/
def statistical_analysis_per_columns (wilcoxon : List ℚ → List ℚ → ℚ)
    (kruskal : List (List ℚ) → ℚ) (df : DataFrame) : Except String (List VerdictRow) :=
  if df.columns.length < 2 then
    Except.error "Data sets number must be equal or greater than two"
  else if df.columns.length = 2 then
    Except.ok ((problemsOf df).map (fun p =>
      let g := groupRows df p
      ⟨p, "Wilcoxon", if wilcoxon (colSeries g 0) (colSeries g 1) < 1/20 then "*" else "-"⟩))
  else
    Except.ok ((problemsOf df).map (fun p =>
      ⟨p, "Kruskal-Wallis", if kruskal (columnSamples df (groupRows df p)) < 1/20 then "*" else "-"⟩))

/- Claim theorems. -/

/-- Input files for the C1 scenario: one FUN artifact for run 0. -/
def c1fs : String → Option (List String) :=
  fun p => if p = "base/a/p/FUN.0.tsv" then some ["1 2"] else none

/-- Indicator for the C1 scenario, computing a fixed value. -/
def c1ind : QualityIndicator := ⟨"HV", false, fun _ _ => "7.0"⟩

/-- C1: the claim says a run value is inserted at line index r of the QI
file, shifting later lines down. On a QI file already holding one line and
a FUN artifact for run 0, the scan in fact appends the value 7.0 behind
the old line, because mode a+ makes readlines return nothing and O_APPEND
moves the write to the end of file; line 0 does not hold the run 0
value. -/
theorem c1_value_lands_at_end_of_file :
    (compute_quality_indicator c1fs [(("base/a/p", "HV"), ["3.0\n"])]
        [("base/a/p", ["FUN.0.tsv"])] [c1ind] "").map
        (fun st => getFile st.qiFiles ("base/a/p", "HV"))
      = Except.ok ["3.0\n", "7.0\n"]
    ∧ ["3.0\n", "7.0\n"].getD 0 "" ≠ "7.0" ++ "\n" :=
  ⟨rfl, by decide⟩

/-- Input files for the C2 scenario: FUN artifacts for runs 0 and 1. -/
def c2fs : String → Option (List String) :=
  fun p =>
    if p = "d/a/p/FUN.0.tsv" then some ["s0"]
    else if p = "d/a/p/FUN.1.tsv" then some ["s1"] else none

/-- Indicator for the C2 scenario, distinguishing the two fronts. -/
def c2ind : QualityIndicator :=
  ⟨"I", false, fun sols _ => if sols = ["s0"] then "v0" else "v1"⟩

/-- C2: the claim says computing run i and run j in either order leaves
the value of run i on line i and the value of run j on line j. Computing
run 1 then run 0 from an empty file yields the lines in computation order
v1, v0, while the other order yields v0, v1: the two orders disagree and
in the first order line 0 does not hold the run 0 value. -/
theorem c2_insertion_is_order_dependent :
    (compute_quality_indicator c2fs [] [("d/a/p", ["FUN.1.tsv", "FUN.0.tsv"])] [c2ind] "").map
        (fun st => getFile st.qiFiles ("d/a/p", "I"))
      = Except.ok ["v1\n", "v0\n"]
    ∧ (compute_quality_indicator c2fs [] [("d/a/p", ["FUN.0.tsv", "FUN.1.tsv"])] [c2ind] "").map
        (fun st => getFile st.qiFiles ("d/a/p", "I"))
      = Except.ok ["v0\n", "v1\n"]
    ∧ (["v1\n", "v0\n"] : List String) ≠ ["v0\n", "v1\n"]
    ∧ ["v1\n", "v0\n"].getD 0 "" ≠ "v0" ++ "\n" :=
  ⟨rfl, rfl, by decide, by decide⟩

/-- Experiment of the C3 scenario: two jobs. -/
def c3exp : Experiment := ⟨"out", [⟨0⟩, ⟨1⟩], 3⟩

/-- C3: the claim says Experiment.run hands each execute to the pool as an
unevaluated callable and never invokes it on the caller thread. The trace
of a two job experiment shows each execute invoked on the caller thread
before its submit call, and no submit call ever receives a callable. -/
theorem c3_jobs_run_on_caller_thread :
    Experiment.run c3exp =
      [RunEvent.callerInvoke (Job.execute ⟨0⟩ "out"),
       RunEvent.poolSubmit SubmittedArg.evaluatedResult,
       RunEvent.callerInvoke (Job.execute ⟨1⟩ "out"),
       RunEvent.poolSubmit SubmittedArg.evaluatedResult]
    ∧ RunEvent.callerInvoke (Job.execute ⟨0⟩ "out") ∈ Experiment.run c3exp
    ∧ ∀ ev ∈ Experiment.run c3exp, ∀ r,
        ev ≠ RunEvent.poolSubmit (SubmittedArg.unevaluatedCallable r) := by
  have hrun : Experiment.run c3exp =
      [RunEvent.callerInvoke (Job.execute ⟨0⟩ "out"),
       RunEvent.poolSubmit SubmittedArg.evaluatedResult,
       RunEvent.callerInvoke (Job.execute ⟨1⟩ "out"),
       RunEvent.poolSubmit SubmittedArg.evaluatedResult] := rfl
  refine ⟨hrun, ?_, ?_⟩
  · rw [hrun]
    exact List.mem_cons_self _ _
  · intro ev hev r
    rw [hrun] at hev
    simp only [List.mem_cons, List.not_mem_nil, or_false] at hev
    rcases hev with rfl | rfl | rfl | rfl <;> simp

/-- Unpacking two names out of fewer than two path segments is the
ValueError of the claim. -/
theorem last2_short (l : List String) (h : l.length < 2) :
    last2 l = Except.error "ValueError: not enough values to unpack" := by
  cases l with
  | nil => rfl
  | cons a t =>
    cases t with
    | nil => rfl
    | cons b t2 => simp at h; omega

/-- C9: both scans split every walked directory path on the separator and
unpack two names before looking at any filename, so a walked directory
with fewer than two path segments and at least one file, of any name,
aborts both with the unpacking ValueError. -/
theorem c9_short_path_aborts_both_scans (dirname f : String) (rest : List String)
    (h : (pySplit dirname '/').length < 2) :
    (∀ (fs : String → Option (List String)) (qi0 : QIFiles)
        (inds : List QualityIndicator) (rr : String),
      compute_quality_indicator fs qi0 [(dirname, f :: rest)] inds rr
        = Except.error "ValueError: not enough values to unpack")
    ∧ (∀ readFile : String → String → List String,
      create_tables_from_experiment [(dirname, f :: rest)] readFile
        = Except.error "ValueError: not enough values to unpack") := by
  constructor
  · intro fs qi0 inds rr
    simp [compute_quality_indicator, scanWalk, scanFiles, processFile, last2_short _ h]
  · intro readFile
    simp [create_tables_from_experiment, tableWalk, tableFiles, last2_short _ h]

/-- Witness for C9: the flat directory path flat with one file that is
neither a FUN nor a QI artifact. -/
theorem c9_short_path_aborts_both_scans_witness :
    ((pySplit "flat" '/').length < 2)
    ∧ compute_quality_indicator (fun _ => none) [] [("flat", ["notes.txt"])] [] ""
        = Except.error "ValueError: not enough values to unpack"
    ∧ create_tables_from_experiment [("flat", ["notes.txt"])] (fun _ _ => [])
        = Except.error "ValueError: not enough values to unpack" :=
  ⟨by decide,
   (c9_short_path_aborts_both_scans "flat" "notes.txt" [] (by decide)).1 (fun _ => none) [] [] "",
   (c9_short_path_aborts_both_scans "flat" "notes.txt" [] (by decide)).2 (fun _ _ => [])⟩

/-- C10: the run identifier is the last all-digit dot separated token of
the filename, and a FUN file without such a token makes the pop raise
IndexError, aborting the scan, as soon as one indicator is configured. -/
theorem c10_missing_run_token_aborts (fs : String → Option (List String))
    (rr dirname filename a p : String) (ind : QualityIndicator)
    (inds : List QualityIndicator) (qi0 : QIFiles)
    (hdir : last2 (pySplit dirname '/') = Except.ok (a, p))
    (hfun : strContains filename "FUN" = true)
    (hnod : ∀ s ∈ pySplit filename '.', isDigitStr s = false) :
    compute_quality_indicator fs qi0 [(dirname, [filename])] (ind :: inds) rr
      = Except.error "IndexError: pop from empty list"
    ∧ extractIndex filename = none
    ∧ extractIndex "FUN.12.tsv" = some 12
    ∧ extractIndex "FUN.1.2.tsv" = some 2 := by
  have hex : extractIndex filename = none := by
    have hfil : (pySplit filename '.').filter isDigitStr = [] := by
      rw [List.filter_eq_nil_iff]
      intro s hs
      simp [hnod s hs]
    unfold extractIndex
    rw [hfil]
    rfl
  refine ⟨?_, hex, by decide, by decide⟩
  simp [compute_quality_indicator, scanWalk, scanFiles, processFile, processIndicators,
    processOneIndicator, hdir, hfun, hex]

/-- Indicator used by the C10 witness. -/
def c10ind : QualityIndicator := ⟨"I", false, fun _ _ => "0"⟩

/-- Witness for C10: the file FUNNY.ps contains FUN but no all-digit
token. -/
theorem c10_missing_run_token_aborts_witness :
    (last2 (pySplit "a/p" '/') = Except.ok ("a", "p"))
    ∧ (strContains "FUNNY.ps" "FUN" = true)
    ∧ (∀ s ∈ pySplit "FUNNY.ps" '.', isDigitStr s = false)
    ∧ (compute_quality_indicator (fun _ => none) [] [("a/p", ["FUNNY.ps"])] [c10ind] ""
        = Except.error "IndexError: pop from empty list"
      ∧ extractIndex "FUNNY.ps" = none
      ∧ extractIndex "FUN.12.tsv" = some 12
      ∧ extractIndex "FUN.1.2.tsv" = some 2) :=
  ⟨rfl, rfl, by decide,
   c10_missing_run_token_aborts (fun _ => none) "" "a/p" "FUNNY.ps" "a" "p" c10ind [] []
     rfl rfl (by decide)⟩

/-- C7: fewer than two columns raise the insufficient groups error, two or
more columns never do. -/
theorem c7_insufficient_groups (w : List ℚ → List ℚ → ℚ) (k : List (List ℚ) → ℚ)
    (df : DataFrame) :
    (df.columns.length < 2 →
      compute_statistical_analysis w k df
        = Except.error "Data sets number must be equal or greater than two")
    ∧ (2 ≤ df.columns.length →
      ∃ res, compute_statistical_analysis w k df = Except.ok res) := by
  constructor
  · intro h
    simp [compute_statistical_analysis, h]
  · intro h
    have h1 : ¬ df.columns.length < 2 := by omega
    unfold compute_statistical_analysis
    rw [if_neg h1]
    by_cases h2 : df.columns.length = 2
    · rw [if_pos h2]
      exact ⟨_, rfl⟩
    · rw [if_neg h2]
      exact ⟨_, rfl⟩

/-- Witness for C7: a one column table raises, a two column table does
not. -/
theorem c7_insufficient_groups_witness :
    (compute_statistical_analysis (fun _ _ => 1) (fun _ => 1) ⟨["c1"], []⟩
        = Except.error "Data sets number must be equal or greater than two")
    ∧ (∃ res, compute_statistical_analysis (fun _ _ => 1) (fun _ => 1) ⟨["c1", "c2"], []⟩
        = Except.ok res) :=
  ⟨(c7_insufficient_groups (fun _ _ => 1) (fun _ => 1) ⟨["c1"], []⟩).1 (by decide),
   (c7_insufficient_groups (fun _ _ => 1) (fun _ => 1) ⟨["c1", "c2"], []⟩).2 (by decide)⟩

/-- C8, amended: when the indicator exposes a reference_front attribute
and the reference front file of the problem is missing, the indicator
loop body succeeds, emits the warning, leaves the reference_front binding
exactly as it was (its initial value, or a front loaded for an earlier
problem) and appends the value computed with that unchanged binding to the
end of the QI file: the missing file is not fatal. -/
theorem c8_missing_front_warns_and_records (fs : String → Option (List String))
    (reference_fronts dirname filename problem : String) (solutions : List String)
    (ist : IndicatorState) (qi : QIFiles) (warnings : List String) (index : Nat)
    (hattr : ist.indicator.has_reference_front = true)
    (hmiss : fs (pathJoin reference_fronts (problem ++ ".pf")) = none)
    (hidx : extractIndex filename = some index) :
    processOneIndicator fs reference_fronts dirname filename problem solutions ist qi warnings
      = Except.ok (ist,
          setFile (setFile qi (dirname, ist.indicator.name)
              (getFile qi (dirname, ist.indicator.name)))
            (dirname, ist.indicator.name)
            (getFile qi (dirname, ist.indicator.name)
              ++ [ist.indicator.compute solutions ist.reference_front ++ "\n"]),
          warnings
            ++ ["Reference front not found at "
                  ++ pathJoin reference_fronts (problem ++ ".pf")]) := by
  unfold processOneIndicator refFrontStep
  rw [hattr, hmiss, hidx]
  simp only [if_true]
  rw [saveIndicatorValue_eq_append, getFile_setFile, if_pos rfl]

/-- Indicator of the C8 witness: no front ever loaded before. -/
def c8wind : IndicatorState := ⟨⟨"I", true, fun _ _ => "v"⟩, none⟩

/-- Witness for C8: one indicator with a reference_front attribute, no
reference front file on disk at all, a FUN file for run 0. -/
theorem c8_missing_front_warns_and_records_witness :
    (c8wind.indicator.has_reference_front = true)
    ∧ ((fun _ => (none : Option (List String))) (pathJoin "refs" ("p" ++ ".pf")) = none)
    ∧ (extractIndex "FUN.0.tsv" = some 0)
    ∧ processOneIndicator (fun _ => none) "refs" "b/a/p" "FUN.0.tsv" "p" ["s"] c8wind [] []
      = Except.ok (c8wind,
          setFile (setFile [] ("b/a/p", c8wind.indicator.name)
              (getFile [] ("b/a/p", c8wind.indicator.name)))
            ("b/a/p", c8wind.indicator.name)
            (getFile [] ("b/a/p", c8wind.indicator.name)
              ++ [c8wind.indicator.compute ["s"] c8wind.reference_front ++ "\n"]),
          [] ++ ["Reference front not found at " ++ pathJoin "refs" ("p" ++ ".pf")]) :=
  ⟨rfl, rfl, by decide,
   c8_missing_front_warns_and_records (fun _ => none) "refs" "b/a/p" "FUN.0.tsv" "p" ["s"]
     c8wind [] [] 0 rfl rfl (by decide)⟩

/-- Input files of the C8 counterexample: problem P1 has a reference
front, problem P2 does not. -/
def c8fs : String → Option (List String) :=
  fun path =>
    if path = "refs/P1.pf" then some ["front1"]
    else if path = "b/a/P1/FUN.0.tsv" then some ["s"]
    else if path = "b/a/P2/FUN.0.tsv" then some ["t"] else none

/-- Indicator of the C8 counterexample: its value records whether a
reference front was bound when compute ran. -/
def c8ind : QualityIndicator :=
  ⟨"I", true, fun _ rf => match rf with | none => "no-front" | some _ => "front-used"⟩

/-- C8, counterexample: the claim says the indicator value is computed
without a reference front when the problem front file is missing. With
problem P1 (front present) walked before problem P2 (front missing), the
P2 value is computed with the stale P1 front still bound, not without a
front, even though the warning is logged and the scan completes. -/
theorem c8_stale_front_used :
    (compute_quality_indicator c8fs []
        [("b/a/P1", ["FUN.0.tsv"]), ("b/a/P2", ["FUN.0.tsv"])] [c8ind] "refs").map
        (fun st => (getFile st.qiFiles ("b/a/P2", "I"), st.warnings))
      = Except.ok (["front-used\n"], ["Reference front not found at refs/P2.pf"])
    ∧ "front-used\n" ≠ "no-front" ++ "\n" :=
  ⟨rfl, by decide⟩

/-- Walk of the C4 scenario: one indicator file under root/A/P1. -/
def c4walk : List (String × List String) := [("root/A/P1", ["QI.X"])]

/-- Contents of the C4 indicator file. -/
def c4read : String → String → List String := fun _ _ => ["0.1\n", "0.2\n", "0.3\n"]

/-- The rows the C4 scan produces. -/
def c4rows : List TableRow :=
  [⟨"P1", 0, "QI.X", pyFloat "0.1\n"⟩,
   ⟨"P1", 1, "QI.X", pyFloat "0.2\n"⟩,
   ⟨"P1", 2, "QI.X", pyFloat "0.3\n"⟩]

/-- C4, counterexample: the claim says the three values land under a
column named A, the algorithm directory name. The produced rows all carry
the indicator filename QI.X as column, the grouped table has no cell for
problem P1, run 0 under a column A, and QI.X is not A. -/
theorem c4_no_column_named_A :
    (create_tables_from_experiment c4walk c4read).map
        (fun rows => (groupMean rows "P1" 0 "A", rows.map (fun r => r.column)))
      = Except.ok (none, ["QI.X", "QI.X", "QI.X"])
    ∧ ("QI.X" : String) ≠ "A" :=
  ⟨rfl, by decide⟩

/-- Walk of the C4 duplicate key scenario: the same problem P1 under two
algorithm directories, each with an indicator file of the same name. -/
def c4walk2 : List (String × List String) :=
  [("root/A/P1", ["QI.X"]), ("root/B/P1", ["QI.X"])]

/-- Contents of the two C4 duplicate key indicator files. -/
def c4read2 : String → String → List String :=
  fun d _ => if d = "root/A/P1" then ["1.0\n"] else ["3.0\n"]

/-- The rows the C4 duplicate key scan produces: the same cell key twice. -/
def c4rows2 : List TableRow :=
  [⟨"P1", 0, "QI.X", pyFloat "1.0\n"⟩, ⟨"P1", 0, "QI.X", pyFloat "3.0\n"⟩]

/-- C4, amended: the three parseable lines 0.1, 0.2, 0.3 under root/A/P1
yield exactly the rows keyed (P1, 0), (P1, 1), (P1, 2) with values 0.1,
0.2, 0.3 under a column named after the indicator filename QI.X, one row
per line index; no column is named after the algorithm directory A; and
duplicate cells for the same key and column are averaged. -/
theorem c4_rows_under_filename_column :
    create_tables_from_experiment c4walk c4read = Except.ok c4rows
    ∧ c4rows.map (fun r => (r.problem, r.run, r.column))
        = [("P1", 0, "QI.X"), ("P1", 1, "QI.X"), ("P1", 2, "QI.X")]
    ∧ groupMean c4rows "P1" 0 "QI.X" = some (1/10)
    ∧ groupMean c4rows "P1" 1 "QI.X" = some (1/5)
    ∧ groupMean c4rows "P1" 2 "QI.X" = some (3/10)
    ∧ (∀ run, groupMean c4rows "P1" run "A" = none)
    ∧ create_tables_from_experiment c4walk2 c4read2 = Except.ok c4rows2
    ∧ groupMean c4rows2 "P1" 0 "QI.X" = some 2 := by
  have h01 : pyFloat "0.1\n" = 1/10 := by
    have h : pyFloat "0.1\n" = ((0 : ℕ) : ℚ) + ((1 : ℕ) : ℚ) / (10 : ℚ) ^ 1 := rfl
    rw [h]; norm_num
  have h02 : pyFloat "0.2\n" = 1/5 := by
    have h : pyFloat "0.2\n" = ((0 : ℕ) : ℚ) + ((2 : ℕ) : ℚ) / (10 : ℚ) ^ 1 := rfl
    rw [h]; norm_num
  have h03 : pyFloat "0.3\n" = 3/10 := by
    have h : pyFloat "0.3\n" = ((0 : ℕ) : ℚ) + ((3 : ℕ) : ℚ) / (10 : ℚ) ^ 1 := rfl
    rw [h]; norm_num
  have h1v : pyFloat "1.0\n" = 1 := by
    have h : pyFloat "1.0\n" = ((1 : ℕ) : ℚ) + ((0 : ℕ) : ℚ) / (10 : ℚ) ^ 1 := rfl
    rw [h]; norm_num
  have h3v : pyFloat "3.0\n" = 3 := by
    have h : pyFloat "3.0\n" = ((3 : ℕ) : ℚ) + ((0 : ℕ) : ℚ) / (10 : ℚ) ^ 1 := rfl
    rw [h]; norm_num
  have hc0 : cellRows c4rows "P1" 0 "QI.X" = [⟨"P1", 0, "QI.X", pyFloat "0.1\n"⟩] := rfl
  have hc1 : cellRows c4rows "P1" 1 "QI.X" = [⟨"P1", 1, "QI.X", pyFloat "0.2\n"⟩] := rfl
  have hc2 : cellRows c4rows "P1" 2 "QI.X" = [⟨"P1", 2, "QI.X", pyFloat "0.3\n"⟩] := rfl
  have hcd : cellRows c4rows2 "P1" 0 "QI.X"
      = [⟨"P1", 0, "QI.X", pyFloat "1.0\n"⟩, ⟨"P1", 0, "QI.X", pyFloat "3.0\n"⟩] := rfl
  refine ⟨rfl, rfl, ?_, ?_, ?_, ?_, rfl, ?_⟩
  · simp [groupMean, hc0, h01]
  · simp [groupMean, hc1, h02]
  · simp [groupMean, hc2, h03]
  · intro run
    have hc : cellRows c4rows "P1" run "A" = [] := by
      unfold cellRows
      rw [List.filter_eq_nil_iff]
      intro r hr
      simp only [c4rows, List.mem_cons, List.not_mem_nil, or_false] at hr
      have hcol : r.column = "QI.X" := by
        rcases hr with rfl | rfl | rfl <;> rfl
      intro hcond
      simp only [Bool.and_eq_true, beq_iff_eq] at hcond
      rw [hcol] at hcond
      exact absurd hcond.2 (by decide)
    simp [groupMean, hc]
  · rw [groupMean, hcd]
    simp [h1v, h3v]
    norm_num

theorem insertSorted_perm (s : String) (l : List String) :
    List.Perm (insertSorted s l) (s :: l) := by
  induction l with
  | nil => exact List.Perm.refl _
  | cons x xs ih =>
    unfold insertSorted
    by_cases h : s < x
    · rw [if_pos h]
    · rw [if_neg h]
      exact (ih.cons x).trans (List.Perm.swap s x xs)

theorem sortStrings_perm (l : List String) : List.Perm (sortStrings l) l := by
  induction l with
  | nil => exact List.Perm.refl _
  | cons a xs ih => exact (insertSorted_perm a (sortStrings xs)).trans (ih.cons a)

theorem mem_problemsOf (df : DataFrame) (p : String) :
    p ∈ problemsOf df ↔ ∃ r ∈ df.rows, r.1.1 = p := by
  unfold problemsOf
  rw [(sortStrings_perm _).mem_iff, List.mem_dedup, List.mem_map]

theorem nodup_problemsOf (df : DataFrame) : (problemsOf df).Nodup :=
  (sortStrings_perm _).nodup_iff.mpr (List.nodup_dedup _)

/-- Shape asserted of a verdict table: its problem column lists every
problem of the input exactly once, every row carries the given test name,
and the verdict is the star marker exactly when the p-value of that
problem is below five percent, the dash marker otherwise. -/
def VerdictSpec (tn : String) (pvalue : String → ℚ) (df : DataFrame)
    (res : List VerdictRow) : Prop :=
  res.map VerdictRow.problem = problemsOf df
  ∧ (res.map VerdictRow.problem).Nodup
  ∧ (∀ p, p ∈ res.map VerdictRow.problem ↔ ∃ r ∈ df.rows, r.1.1 = p)
  ∧ ∀ row ∈ res, row.testName = tn
      ∧ (row.verdict = "*" ↔ pvalue row.problem < 1/20)
      ∧ (row.verdict = "*" ∨ row.verdict = "-")

theorem verdictSpec_map (tn : String) (pvalue : String → ℚ) (df : DataFrame) :
    VerdictSpec tn pvalue df
      ((problemsOf df).map (fun p => ⟨p, tn, if pvalue p < 1/20 then "*" else "-"⟩)) := by
  have hmap : ((problemsOf df).map
        (fun p => (⟨p, tn, if pvalue p < 1/20 then "*" else "-"⟩ : VerdictRow))).map
        VerdictRow.problem = problemsOf df := by
    have hcomp : (VerdictRow.problem ∘ fun p =>
        (⟨p, tn, if pvalue p < 1/20 then "*" else "-"⟩ : VerdictRow)) = id := by
      funext p
      rfl
    rw [List.map_map, hcomp, List.map_id]
  refine ⟨hmap, ?_, ?_, ?_⟩
  · rw [hmap]
    exact nodup_problemsOf df
  · intro p
    rw [hmap]
    exact mem_problemsOf df p
  · intro row hrow
    rcases List.mem_map.mp hrow with ⟨p, hp, rfl⟩
    refine ⟨rfl, ?_, ?_⟩
    · show ((if pvalue p < 1/20 then "*" else "-") = "*") ↔ pvalue p < 1/20
      by_cases h : pvalue p < 1/20
      · rw [if_pos h]
        exact ⟨fun _ => h, fun _ => rfl⟩
      · rw [if_neg h]
        exact ⟨fun hv => absurd hv (by decide), fun hl => absurd hl h⟩
    · show (if pvalue p < 1/20 then "*" else "-") = "*"
        ∨ (if pvalue p < 1/20 then "*" else "-") = "-"
      by_cases h : pvalue p < 1/20
      · exact Or.inl (if_pos h)
      · exact Or.inr (if_neg h)

/-- C5, amended: two columns run the Wilcoxon test on the two column
series of each problem subset; three or more columns run the
Kruskal-Wallis test whose samples are the rows of each problem subset,
one sample per run across all columns, not one sample per column; both
branches mark significance below five percent and produce one row per
problem indexed by problem name. -/
theorem c5_tests_and_samples (w : List ℚ → List ℚ → ℚ) (k : List (List ℚ) → ℚ)
    (df : DataFrame) :
    (df.columns.length = 2 →
      ∃ res, compute_statistical_analysis w k df = Except.ok res
        ∧ VerdictSpec "Wilcoxon"
            (fun p => w (colSeries (groupRows df p) 0) (colSeries (groupRows df p) 1)) df res)
    ∧ (3 ≤ df.columns.length →
      ∃ res, compute_statistical_analysis w k df = Except.ok res
        ∧ VerdictSpec "Kruskal-Wallis" (fun p => k (groupRows df p)) df res) := by
  constructor
  · intro h2
    have h1 : ¬ df.columns.length < 2 := by omega
    refine ⟨_, ?_, verdictSpec_map "Wilcoxon" _ df⟩
    unfold compute_statistical_analysis
    rw [if_neg h1, if_pos h2]
  · intro h3
    have h1 : ¬ df.columns.length < 2 := by omega
    have h2 : ¬ df.columns.length = 2 := by omega
    refine ⟨_, ?_, verdictSpec_map "Kruskal-Wallis" _ df⟩
    unfold compute_statistical_analysis
    rw [if_neg h1, if_neg h2]

/-- Wilcoxon oracle of the C5 scenarios. -/
def c5w : List ℚ → List ℚ → ℚ := fun _ _ => 1

/-- Kruskal-Wallis oracle of the C5 counterexample: significant exactly on
the column decomposition of the C5 table. -/
def c5k : List (List ℚ) → ℚ :=
  fun s => if s = [[1, 4], [2, 5], [3, 6]] then 0 else 1

/-- Table of the C5 counterexample: three columns, one problem with two
runs. -/
def c5df : DataFrame := ⟨["A", "B", "C"], [(("P", 0), [1, 2, 3]), (("P", 1), [4, 5, 6])]⟩

/-- C5, counterexample: the claim says three or more columns run the
Kruskal-Wallis test over all columns. The code hands the oracle the rows
of the subset instead of its columns: on a table whose column samples
test significant while its row samples do not, the code records the dash
marker where the claim demands the star marker, as the spec word reading
of the same function shows. -/
theorem c5_kruskal_gets_rows_not_columns :
    compute_statistical_analysis c5w c5k c5df = Except.ok [⟨"P", "Kruskal-Wallis", "-"⟩]
    ∧ statistical_analysis_per_columns c5w c5k c5df
        = Except.ok [⟨"P", "Kruskal-Wallis", "*"⟩]
    ∧ c5k (columnSamples c5df (groupRows c5df "P")) < 1/20
    ∧ ¬ c5k (groupRows c5df "P") < 1/20 := by
  have hg : groupRows c5df "P" = [[1, 2, 3], [4, 5, 6]] := rfl
  have hcs : columnSamples c5df (groupRows c5df "P") = [[1, 4], [2, 5], [3, 6]] := rfl
  have hk0 : c5k [[(1 : ℚ), 4], [2, 5], [3, 6]] = 0 := by
    show (if _ = _ then (0 : ℚ) else 1) = 0
    rw [if_pos rfl]
  have hk1 : c5k [[(1 : ℚ), 2, 3], [4, 5, 6]] = 1 := by
    show (if _ = _ then (0 : ℚ) else 1) = 1
    rw [if_neg (by decide)]
  have hlt : c5k (columnSamples c5df (groupRows c5df "P")) < 1/20 := by
    rw [hcs, hk0]
    norm_num
  have hnlt : ¬ c5k (groupRows c5df "P") < 1/20 := by
    rw [hg, hk1]
    norm_num
  have hp : problemsOf c5df = ["P"] := rfl
  refine ⟨?_, ?_, hlt, hnlt⟩
  · unfold compute_statistical_analysis
    rw [if_neg (by decide), if_neg (by decide), hp]
    simp only [List.map]
    rw [if_neg hnlt]
  · unfold statistical_analysis_per_columns
    rw [if_neg (by decide), if_neg (by decide), hp]
    simp only [List.map]
    rw [if_pos hlt]

/-- Two column table of the C5 witness. -/
def c5df2W : DataFrame := ⟨["A", "B"], [(("P", 0), [1, 2]), (("P", 1), [3, 4])]⟩

/-- Three column table of the C5 witness. -/
def c5df3W : DataFrame := ⟨["A", "B", "C"], [(("P", 0), [1, 2, 3])]⟩

/-- Witness for C5: each branch of the amended claim at a concrete
table. -/
theorem c5_tests_and_samples_witness :
    (∃ res, compute_statistical_analysis c5w c5k c5df2W = Except.ok res
      ∧ VerdictSpec "Wilcoxon"
          (fun p => c5w (colSeries (groupRows c5df2W p) 0) (colSeries (groupRows c5df2W p) 1))
          c5df2W res)
    ∧ (∃ res, compute_statistical_analysis c5w c5k c5df3W = Except.ok res
      ∧ VerdictSpec "Kruskal-Wallis" (fun p => c5k (groupRows c5df3W p)) c5df3W res) :=
  ⟨(c5_tests_and_samples c5w c5k c5df2W).1 rfl,
   (c5_tests_and_samples c5w c5k c5df3W).2 (by decide)⟩

/-- The second file state extends the first by the per key suffix
delta. -/
def AppendsBy (q Q : QIFiles) (delta : QIKey → List String) : Prop :=
  ∀ kk, getFile Q kk = getFile q kk ++ delta kk

theorem getFile_afterWrite (q : QIFiles) (key : QIKey) (xs : List String) (kk : QIKey) :
    getFile (setFile (setFile q key (getFile q key)) key (getFile q key ++ xs)) kk
      = getFile q kk ++ (if kk = key then xs else []) := by
  rw [getFile_setFile]
  by_cases h : kk = key
  · rw [if_pos h, if_pos h, h]
  · rw [if_neg h, getFile_setFile, if_neg h, if_neg h, List.append_nil]

theorem processOneIndicator_eq (fs : String → Option (List String))
    (rr dirname filename problem : String) (sols : List String)
    (ist : IndicatorState) (q : QIFiles) (w : List String) :
    processOneIndicator fs rr dirname filename problem sols ist q w
      = match extractIndex filename with
        | none => Except.error "IndexError: pop from empty list"
        | some _ =>
          Except.ok ((refFrontStep fs rr problem ist).1,
            setFile (setFile q (dirname, (refFrontStep fs rr problem ist).1.indicator.name)
                (getFile q (dirname, (refFrontStep fs rr problem ist).1.indicator.name)))
              (dirname, (refFrontStep fs rr problem ist).1.indicator.name)
              (getFile q (dirname, (refFrontStep fs rr problem ist).1.indicator.name)
                ++ [(refFrontStep fs rr problem ist).1.indicator.compute sols
                      (refFrontStep fs rr problem ist).1.reference_front ++ "\n"]),
            w ++ (refFrontStep fs rr problem ist).2) := by
  simp only [processOneIndicator]
  split
  · rfl
  · rw [saveIndicatorValue_eq_append, getFile_setFile, if_pos rfl]

theorem processOneIndicator_pair (fs : String → Option (List String))
    (rr dirname filename problem : String) (sols : List String)
    (ist : IndicatorState) (q : QIFiles) (w : List String)
    {ist1 : IndicatorState} {Q : QIFiles} {W : List String}
    (h : processOneIndicator fs rr dirname filename problem sols ist q w
          = Except.ok (ist1, Q, W)) :
    ∃ delta : QIKey → List String, AppendsBy q Q delta
      ∧ ∀ q' w', ∃ Q' W',
          processOneIndicator fs rr dirname filename problem sols ist q' w'
            = Except.ok (ist1, Q', W')
          ∧ AppendsBy q' Q' delta := by
  rw [processOneIndicator_eq] at h
  cases hidx : extractIndex filename with
  | none =>
    rw [hidx] at h
    exact Except.noConfusion h
  | some index =>
    rw [hidx] at h
    simp only [Except.ok.injEq, Prod.mk.injEq] at h
    obtain ⟨hi, hQ, hW⟩ := h
    refine ⟨fun kk =>
        if kk = (dirname, (refFrontStep fs rr problem ist).1.indicator.name) then
          [(refFrontStep fs rr problem ist).1.indicator.compute sols
              (refFrontStep fs rr problem ist).1.reference_front ++ "\n"]
        else [], ?_, ?_⟩
    · intro kk
      rw [← hQ, getFile_afterWrite]
    · intro q' w'
      refine ⟨setFile (setFile q' (dirname, (refFrontStep fs rr problem ist).1.indicator.name)
            (getFile q' (dirname, (refFrontStep fs rr problem ist).1.indicator.name)))
          (dirname, (refFrontStep fs rr problem ist).1.indicator.name)
          (getFile q' (dirname, (refFrontStep fs rr problem ist).1.indicator.name)
            ++ [(refFrontStep fs rr problem ist).1.indicator.compute sols
                  (refFrontStep fs rr problem ist).1.reference_front ++ "\n"]),
        w' ++ (refFrontStep fs rr problem ist).2, ?_, ?_⟩
      · rw [processOneIndicator_eq, hidx, ← hi]
      · intro kk
        rw [getFile_afterWrite]

theorem processIndicators_pair (fs : String → Option (List String))
    (rr dirname filename problem : String) (sols : List String) :
    ∀ (ists : List IndicatorState) (q : QIFiles) (w : List String)
      {ists1 : List IndicatorState} {Q : QIFiles} {W : List String},
      processIndicators fs rr dirname filename problem sols ists q w
        = Except.ok (ists1, Q, W) →
      ∃ delta : QIKey → List String, AppendsBy q Q delta
        ∧ ∀ q' w', ∃ Q' W',
            processIndicators fs rr dirname filename problem sols ists q' w'
              = Except.ok (ists1, Q', W')
            ∧ AppendsBy q' Q' delta
  | [], q, w, ists1, Q, W, h => by
    simp only [processIndicators, Except.ok.injEq, Prod.mk.injEq] at h
    obtain ⟨h1, h2, h3⟩ := h
    subst h1
    subst h2
    subst h3
    exact ⟨fun _ => [], fun kk => (List.append_nil _).symm,
      fun q' w' => ⟨q', w', rfl, fun kk => (List.append_nil _).symm⟩⟩
  | ist :: rest, q, w, ists1, Q, W, h => by
    cases h1 : processOneIndicator fs rr dirname filename problem sols ist q w with
    | error e =>
      simp only [processIndicators, h1] at h
      exact Except.noConfusion h
    | ok out =>
      obtain ⟨ist1, q1, w1⟩ := out
      simp only [processIndicators, h1] at h
      cases h2 : processIndicators fs rr dirname filename problem sols rest q1 w1 with
      | error e =>
        simp only [h2] at h
        exact Except.noConfusion h
      | ok out2 =>
        obtain ⟨rest1, q2, w2⟩ := out2
        simp only [h2, Except.ok.injEq, Prod.mk.injEq] at h
        obtain ⟨hA, hB, hC⟩ := h
        obtain ⟨d1, hd1, hu1⟩ :=
          processOneIndicator_pair fs rr dirname filename problem sols ist q w h1
        obtain ⟨d2, hd2, hu2⟩ :=
          processIndicators_pair fs rr dirname filename problem sols rest q1 w1 h2
        refine ⟨fun kk => d1 kk ++ d2 kk, ?_, ?_⟩
        · intro kk
          rw [← hB, hd2 kk, hd1 kk, List.append_assoc]
        · intro q' w'
          obtain ⟨Q1', W1', hrun1, hA1⟩ := hu1 q' w'
          obtain ⟨Q2', W2', hrun2, hA2⟩ := hu2 Q1' W1'
          refine ⟨Q2', W2', ?_, ?_⟩
          · simp only [processIndicators, hrun1, hrun2, hA]
          · intro kk
            rw [hA2 kk, hA1 kk, List.append_assoc]

theorem processFile_pair (fs : String → Option (List String))
    (rr dirname filename : String) (st : ScanState) {st1 : ScanState}
    (h : processFile fs rr dirname filename st = Except.ok st1) :
    ∃ delta : QIKey → List String, AppendsBy st.qiFiles st1.qiFiles delta
      ∧ ∀ q' w', ∃ Q' W',
          processFile fs rr dirname filename ⟨q', st.indicators, w'⟩
            = Except.ok ⟨Q', st1.indicators, W'⟩
          ∧ AppendsBy q' Q' delta := by
  cases hl : last2 (pySplit dirname '/') with
  | error e =>
    simp only [processFile, hl] at h
    exact Except.noConfusion h
  | ok ap =>
    simp only [processFile, hl] at h
    by_cases hf : strContains filename "FUN" = true
    · rw [if_pos hf] at h
      cases hp : processIndicators fs rr dirname filename ap.2
          ((fs (pathJoin dirname filename)).getD []) st.indicators st.qiFiles st.warnings with
      | error e =>
        simp only [hp] at h
        exact Except.noConfusion h
      | ok out =>
        obtain ⟨inds1, Q0, W0⟩ := out
        simp only [hp] at h
        have hst1 := Except.ok.inj h
        subst hst1
        obtain ⟨dlt, hd, hu⟩ :=
          processIndicators_pair fs rr dirname filename ap.2
            ((fs (pathJoin dirname filename)).getD []) st.indicators st.qiFiles st.warnings hp
        refine ⟨dlt, hd, ?_⟩
        intro q' w'
        obtain ⟨Q', W', hrun, hA⟩ := hu q' w'
        refine ⟨Q', W', ?_, hA⟩
        simp only [processFile, hl]
        rw [if_pos hf]
        simp only [hrun]
    · rw [if_neg hf] at h
      have hst1 := Except.ok.inj h
      subst hst1
      refine ⟨fun _ => [], fun kk => (List.append_nil _).symm, ?_⟩
      intro q' w'
      refine ⟨q', w', ?_, fun kk => (List.append_nil _).symm⟩
      simp only [processFile, hl]
      rw [if_neg hf]

theorem scanFiles_pair (fs : String → Option (List String)) (rr dirname : String) :
    ∀ (files : List String) (st : ScanState) {st1 : ScanState},
      scanFiles fs rr dirname files st = Except.ok st1 →
      ∃ delta : QIKey → List String, AppendsBy st.qiFiles st1.qiFiles delta
        ∧ ∀ q' w', ∃ Q' W',
            scanFiles fs rr dirname files ⟨q', st.indicators, w'⟩
              = Except.ok ⟨Q', st1.indicators, W'⟩
            ∧ AppendsBy q' Q' delta
  | [], st, st1, h => by
    have hst1 := Except.ok.inj h
    subst hst1
    exact ⟨fun _ => [], fun kk => (List.append_nil _).symm,
      fun q' w' => ⟨q', w', rfl, fun kk => (List.append_nil _).symm⟩⟩
  | f :: rest, st, st1, h => by
    cases h1 : processFile fs rr dirname f st with
    | error e =>
      simp only [scanFiles, h1] at h
      exact Except.noConfusion h
    | ok stm =>
      simp only [scanFiles, h1] at h
      obtain ⟨d1, hd1, hu1⟩ := processFile_pair fs rr dirname f st h1
      obtain ⟨d2, hd2, hu2⟩ := scanFiles_pair fs rr dirname rest stm h
      refine ⟨fun kk => d1 kk ++ d2 kk, ?_, ?_⟩
      · intro kk
        rw [hd2 kk, hd1 kk, List.append_assoc]
      · intro q' w'
        obtain ⟨Q1', W1', hrunA, hA1⟩ := hu1 q' w'
        obtain ⟨Q2', W2', hrunB, hA2⟩ := hu2 Q1' W1'
        refine ⟨Q2', W2', ?_, ?_⟩
        · simp only [scanFiles, hrunA, hrunB]
        · intro kk
          rw [hA2 kk, hA1 kk, List.append_assoc]

theorem scanWalk_pair (fs : String → Option (List String)) (rr : String) :
    ∀ (walk : List (String × List String)) (st : ScanState) {st1 : ScanState},
      scanWalk fs rr walk st = Except.ok st1 →
      ∃ delta : QIKey → List String, AppendsBy st.qiFiles st1.qiFiles delta
        ∧ ∀ q' w', ∃ Q' W',
            scanWalk fs rr walk ⟨q', st.indicators, w'⟩
              = Except.ok ⟨Q', st1.indicators, W'⟩
            ∧ AppendsBy q' Q' delta
  | [], st, st1, h => by
    have hst1 := Except.ok.inj h
    subst hst1
    exact ⟨fun _ => [], fun kk => (List.append_nil _).symm,
      fun q' w' => ⟨q', w', rfl, fun kk => (List.append_nil _).symm⟩⟩
  | (d, files) :: rest, st, st1, h => by
    cases h1 : scanFiles fs rr d files st with
    | error e =>
      simp only [scanWalk, h1] at h
      exact Except.noConfusion h
    | ok stm =>
      simp only [scanWalk, h1] at h
      obtain ⟨d1, hd1, hu1⟩ := scanFiles_pair fs rr d files st h1
      obtain ⟨d2, hd2, hu2⟩ := scanWalk_pair fs rr rest stm h
      refine ⟨fun kk => d1 kk ++ d2 kk, ?_, ?_⟩
      · intro kk
        rw [hd2 kk, hd1 kk, List.append_assoc]
      · intro q' w'
        obtain ⟨Q1', W1', hrunA, hA1⟩ := hu1 q' w'
        obtain ⟨Q2', W2', hrunB, hA2⟩ := hu2 Q1' W1'
        refine ⟨Q2', W2', ?_, ?_⟩
        · simp only [scanWalk, hrunA, hrunB]
        · intro kk
          rw [hA2 kk, hA1 kk, List.append_assoc]

/-- C6: a second scan over the same unchanged artifacts, the same
indicators and the QI files the first scan left behind duplicates every QI
file: afterwards each holds its first scan lines twice, in particular
twice as many lines. -/
theorem c6_second_scan_doubles_files (fs : String → Option (List String))
    (walk : List (String × List String)) (inds : List QualityIndicator)
    (rr : String) (st1 : ScanState)
    (h : compute_quality_indicator fs [] walk inds rr = Except.ok st1) :
    ∃ st2, compute_quality_indicator fs st1.qiFiles walk inds rr = Except.ok st2
      ∧ ∀ key, getFile st2.qiFiles key
          = getFile st1.qiFiles key ++ getFile st1.qiFiles key := by
  unfold compute_quality_indicator at h ⊢
  obtain ⟨dlt, hd, hu⟩ := scanWalk_pair fs rr walk _ h
  obtain ⟨Q', W', hrun, hA⟩ := hu st1.qiFiles []
  refine ⟨⟨Q', st1.indicators, W'⟩, hrun, ?_⟩
  intro key
  have h1 : getFile st1.qiFiles key = dlt key := by
    have := hd key
    simpa [getFile] using this
  have h2 := hA key
  rw [h2, ← h1]

/-- Input files of the C6 witness. -/
def c6fs : String → Option (List String) :=
  fun p => if p = "b/a/p/FUN.0.tsv" then some ["x"] else none

/-- Indicator of the C6 witness. -/
def c6ind : QualityIndicator := ⟨"I", false, fun _ _ => "1.0"⟩

/-- Walk of the C6 witness. -/
def c6walk : List (String × List String) := [("b/a/p", ["FUN.0.tsv"])]

/-- State after the first C6 scan. -/
def c6st1 : ScanState := ⟨[(("b/a/p", "I"), ["1.0\n"])], [⟨c6ind, none⟩], []⟩

/-- Witness for C6: one FUN artifact, one indicator; the second scan
leaves the QI file with its line twice. -/
theorem c6_second_scan_doubles_files_witness :
    (compute_quality_indicator c6fs [] c6walk [c6ind] "" = Except.ok c6st1)
    ∧ ∃ st2, compute_quality_indicator c6fs c6st1.qiFiles c6walk [c6ind] "" = Except.ok st2
        ∧ ∀ key, getFile st2.qiFiles key
            = getFile c6st1.qiFiles key ++ getFile c6st1.qiFiles key :=
  ⟨rfl, c6_second_scan_doubles_files c6fs c6walk [c6ind] "" c6st1 rfl⟩

end Laboratory
